import Mathlib

/-!
Verification of the Agentforce streaming bridge core. This file gives a
shallow embedding of the token manager (auth_manager.py), of the
authenticated request wrapper and of the SSE stream processor
(agentforce_client.py), and proves the specified properties about them.

The embedding is executable: Python strings are Lean strings, parsed JSON
payloads are values of an inductive type Json, time values are rationals
(every Python float is a rational; infinities and NaN are carried
explicitly where they can arise), and each fallible Python operation is
modelled with Option or Except together with an explicit error type.
-/

-- Python string helpers ------------------------------------------------------

/-- Python str.startswith on whole strings. -/
def pyStartswith (s p : String) : Bool := p.data.isPrefixOf s.data

/-- Whitespace characters removed by Python str.strip() with no argument. -/
def pyWsChars : List Char :=
  [' ', '\t', '\n', '\r', '\x0b', '\x0c', '\x1c', '\x1d', '\x1e', '\x1f',
   '\x85', '\xa0', '\u1680', '\u2000', '\u2001', '\u2002', '\u2003', '\u2004',
   '\u2005', '\u2006', '\u2007', '\u2008', '\u2009', '\u200a', '\u2028',
   '\u2029', '\u202f', '\u205f', '\u3000']

/-- Test for a Python whitespace character. -/
def pyIsWs (c : Char) : Bool := pyWsChars.contains c

/-- Python str.strip() with no argument: drop leading and trailing whitespace. -/
def pyStripWs (s : String) : String :=
  String.mk (((s.data.dropWhile pyIsWs).reverse.dropWhile pyIsWs).reverse)

/-- Python str.lstrip(chars): drop leading characters drawn from the set. -/
def pyLstripSet (s : String) (cs : List Char) : String :=
  String.mk (s.data.dropWhile (fun c => cs.contains c))

/-- The character set of the Python literal "data:" as understood by lstrip. -/
def dataChars : List Char := ['d', 'a', 't', ':']

-- JSON values ----------------------------------------------------------------

mutual

/-- A parsed Python JSON value, as produced by json.loads. Integer literals
become Python int (arbitrary precision, constructor num); literals with a
fraction or exponent become Python float, carried exactly as m * 10 ^ e
(constructor float); the json module also accepts the non-standard constants
Infinity, -Infinity and NaN, carried as separate constructors. Objects keep
the dict insertion order of json.loads: first occurrence position of each
key, with the last value winning on duplicates. -/
inductive Json where
  | null
  | bool (b : Bool)
  | num (n : Int)
  | float (m : Int) (e : Int)
  | inf
  | ninf
  | nan
  | str (s : String)
  | arr (items : JItems)
  | obj (members : JMembers)

/-- The items of a JSON array, in order. -/
inductive JItems where
  | nil
  | cons (hd : Json) (tl : JItems)

/-- The members of a JSON object: key value pairs in dict order. -/
inductive JMembers where
  | nil
  | cons (k : String) (v : Json) (tl : JMembers)

end

/-- Python dict membership test on an object. -/
def jmHas : JMembers → String → Bool
  | .nil, _ => false
  | .cons k _ t, key => k = key || jmHas t key

/-- Python dict lookup on an object, dict.get style: none when absent. -/
def jmLookup : JMembers → String → Option Json
  | .nil, _ => none
  | .cons k v t, key => if k = key then some v else jmLookup t key

/-- Insert a key into an object under Python dict semantics: an existing key
keeps its position but takes the new value, a new key goes to the end. -/
def jmInsert : JMembers → String → Json → JMembers
  | .nil, key, v => .cons key v .nil
  | .cons k w t, key, v =>
    if k = key then .cons k v t else .cons k w (jmInsert t key v)

/-- Append one item at the end of an array. -/
def jiSnoc : JItems → Json → JItems
  | .nil, v => .cons v .nil
  | .cons h t, v => .cons h (jiSnoc t v)

/-- Test whether some array item satisfies a predicate. -/
def jiAny : JItems → (Json → Bool) → Bool
  | .nil, _ => false
  | .cons h t, p => p h || jiAny t p

/-- The Python comparison event == "message" for one iterated value: true
exactly when the value is that string. -/
def pyEqStrMessage : Json → Bool
  | .str s => s = "message"
  | _ => false

-- The json.loads parser ------------------------------------------------------

/-- Whitespace skipped between JSON tokens (the json module skips exactly
space, tab, newline and carriage return). -/
def jsonSkipWs : List Char → List Char :=
  List.dropWhile (fun c => c == ' ' || c == '\t' || c == '\n' || c == '\r')

/-- Hexadecimal digit value, for string escapes of the form backslash-u. -/
def hexVal (c : Char) : Option Nat :=
  if '0' ≤ c ∧ c ≤ '9' then some (c.toNat - '0'.toNat)
  else if 'a' ≤ c ∧ c ≤ 'f' then some (c.toNat - 'a'.toNat + 10)
  else if 'A' ≤ c ∧ c ≤ 'F' then some (c.toNat - 'A'.toNat + 10)
  else none

/-- Read four hex digits. -/
def read4Hex : List Char → Option (Nat × List Char)
  | a :: b :: c :: d :: rest =>
    match hexVal a, hexVal b, hexVal c, hexVal d with
    | some x, some y, some z, some w => some (((x * 16 + y) * 16 + z) * 16 + w, rest)
    | _, _, _, _ => none
  | _ => none

/-- Body of a JSON string literal, after the opening quote. Strict mode:
unescaped control characters are rejected. A valid surrogate escape pair is
combined into one scalar; a lone surrogate escape, which Python keeps as a
lone surrogate code unit, is carried as U+FFFD since Lean characters are
scalar values (no claim exercises lone surrogates). -/
def parseStringBody : Nat → List Char → List Char → Option (String × List Char)
  | 0, _, _ => none
  | _+1, acc, '\x22' :: rest => some (String.mk acc.reverse, rest)
  | f+1, acc, '\\' :: e :: rest =>
    match e with
    | '\x22' => parseStringBody f ('\x22' :: acc) rest
    | '\\' => parseStringBody f ('\\' :: acc) rest
    | '/' => parseStringBody f ('/' :: acc) rest
    | 'b' => parseStringBody f ('\x08' :: acc) rest
    | 'f' => parseStringBody f ('\x0c' :: acc) rest
    | 'n' => parseStringBody f ('\n' :: acc) rest
    | 'r' => parseStringBody f ('\r' :: acc) rest
    | 't' => parseStringBody f ('\t' :: acc) rest
    | 'u' =>
      match read4Hex rest with
      | none => none
      | some (n, r2) =>
        if 0xd800 ≤ n ∧ n ≤ 0xdbff then
          match r2 with
          | '\\' :: 'u' :: r3 =>
            match read4Hex r3 with
            | some (m, r4) =>
              if 0xdc00 ≤ m ∧ m ≤ 0xdfff then
                parseStringBody f
                  (Char.ofNat (0x10000 + (n - 0xd800) * 0x400 + (m - 0xdc00)) :: acc) r4
              else parseStringBody f ('\ufffd' :: acc) r2
            | none => parseStringBody f ('\ufffd' :: acc) r2
          | _ => parseStringBody f ('\ufffd' :: acc) r2
        else if 0xdc00 ≤ n ∧ n ≤ 0xdfff then parseStringBody f ('\ufffd' :: acc) r2
        else parseStringBody f (Char.ofNat n :: acc) r2
    | _ => none
  | f+1, acc, c :: rest =>
    if c.toNat < 0x20 then none else parseStringBody f (c :: acc) rest
  | _+1, _, [] => none

/-- Test for an ASCII digit. -/
def isDigit (c : Char) : Bool := '0' ≤ c && c ≤ '9'

/-- Numeric value of a digit string. -/
def digitsToNat (ds : List Char) : Nat :=
  ds.foldl (fun acc c => acc * 10 + (c.toNat - '0'.toNat)) 0

/-- Parse a JSON number starting at a minus sign or digit, following the
number regex of the json module: -?(0|[1-9][0-9]*)([.][0-9]+)?([eE][+-]?[0-9]+)?.
The match is maximal per that regex; what the regex does not take stays in
the remainder (the surrounding grammar then rejects stray characters). -/
def parseNumber (cs : List Char) : Option (Json × List Char) :=
  let (neg, cs1) := match cs with
    | '-' :: r => (true, r)
    | _ => (false, cs)
  match cs1 with
  | c :: _ =>
    if ¬ isDigit c then none else
    let (intDs, cs2) :=
      if c = '0' then ([c], cs1.tail)
      else (cs1.takeWhile isDigit, cs1.dropWhile isDigit)
    let (fracDs, cs3) :=
      match cs2 with
      | '.' :: d :: _ =>
        if isDigit d then
          ((cs2.tail).takeWhile isDigit, (cs2.tail).dropWhile isDigit)
        else ([], cs2)
      | _ => ([], cs2)
    let (expOk, expNeg, expDs, cs4) :=
      match cs3 with
      | e :: r =>
        if e = 'e' ∨ e = 'E' then
          match r with
          | '+' :: d :: _ =>
            if isDigit d then (true, false, (r.tail).takeWhile isDigit, (r.tail).dropWhile isDigit)
            else (false, false, [], cs3)
          | '-' :: d :: _ =>
            if isDigit d then (true, true, (r.tail).takeWhile isDigit, (r.tail).dropWhile isDigit)
            else (false, false, [], cs3)
          | d :: _ =>
            if isDigit d then (true, false, r.takeWhile isDigit, r.dropWhile isDigit)
            else (false, false, [], cs3)
          | [] => (false, false, [], cs3)
        else (false, false, [], cs3)
      | [] => (false, false, [], cs3)
    if fracDs.isEmpty ∧ ¬ expOk then
      let n : Int := Int.ofNat (digitsToNat intDs)
      some (.num (if neg then -n else n), cs2)
    else
      let mant : Int := Int.ofNat (digitsToNat (intDs ++ fracDs))
      let ex : Int :=
        (if expOk then
          (if expNeg then -(Int.ofNat (digitsToNat expDs)) else Int.ofNat (digitsToNat expDs))
         else 0) - Int.ofNat fracDs.length
      some (.float (if neg then -mant else mant) ex, cs4)
  | [] => none

mutual

/-- Parse one JSON value. Fuel decreases on every nested call; the top level
supplies more fuel than the input could ever need. -/
def parseV : Nat → List Char → Option (Json × List Char)
  | 0, _ => none
  | f+1, cs =>
    match jsonSkipWs cs with
    | [] => none
    | '\x7b' :: rest =>
      match jsonSkipWs rest with
      | '\x7d' :: r2 => some (.obj .nil, r2)
      | r2 => parseMembers f r2 .nil
    | '[' :: rest =>
      match jsonSkipWs rest with
      | ']' :: r2 => some (.arr .nil, r2)
      | r2 => parseItems f r2 .nil
    | '\x22' :: rest =>
      match parseStringBody (rest.length + 1) [] rest with
      | some (s, r2) => some (.str s, r2)
      | none => none
    | 't' :: 'r' :: 'u' :: 'e' :: rest => some (.bool true, rest)
    | 'f' :: 'a' :: 'l' :: 's' :: 'e' :: rest => some (.bool false, rest)
    | 'n' :: 'u' :: 'l' :: 'l' :: rest => some (.null, rest)
    | 'N' :: 'a' :: 'N' :: rest => some (.nan, rest)
    | 'I' :: 'n' :: 'f' :: 'i' :: 'n' :: 'i' :: 't' :: 'y' :: rest => some (.inf, rest)
    | '-' :: 'I' :: 'n' :: 'f' :: 'i' :: 'n' :: 'i' :: 't' :: 'y' :: rest => some (.ninf, rest)
    | cs2 => parseNumber cs2

/-- Parse the members of an object after the opening brace (object known to
be non-empty at this point). -/
def parseMembers : Nat → List Char → JMembers → Option (Json × List Char)
  | 0, _, _ => none
  | f+1, cs, acc =>
    match jsonSkipWs cs with
    | '\x22' :: rest =>
      match parseStringBody (rest.length + 1) [] rest with
      | none => none
      | some (k, r1) =>
        match jsonSkipWs r1 with
        | ':' :: r2 =>
          match parseV f r2 with
          | none => none
          | some (v, r3) =>
            match jsonSkipWs r3 with
            | ',' :: r4 => parseMembers f r4 (jmInsert acc k v)
            | '\x7d' :: r4 => some (.obj (jmInsert acc k v), r4)
            | _ => none
        | _ => none
    | _ => none

/-- Parse the items of an array after the opening bracket (array known to be
non-empty at this point). -/
def parseItems : Nat → List Char → JItems → Option (Json × List Char)
  | 0, _, _ => none
  | f+1, cs, acc =>
    match parseV f cs with
    | none => none
    | some (v, r1) =>
      match jsonSkipWs r1 with
      | ',' :: r2 => parseItems f r2 (jiSnoc acc v)
      | ']' :: r2 => some (.arr (jiSnoc acc v), r2)
      | _ => none

end

/-- Python json.loads: parse one JSON document; trailing data after the
value makes the whole parse fail, exactly as the json module raises for
extra data. none models a raised json.JSONDecodeError. -/
def json_loads (s : String) : Option Json :=
  match parseV (2 * s.data.length + 4) s.data with
  | some (v, rest) => if (jsonSkipWs rest).isEmpty then some v else none
  | none => none

-- The json.dumps serializer ---------------------------------------------------

/-- Lowercase hexadecimal digit. -/
def hexDigitCh (n : Nat) : Char :=
  if n < 10 then Char.ofNat ('0'.toNat + n) else Char.ofNat ('a'.toNat + n - 10)

/-- Four lowercase hex digits, as used in JSON unicode escapes. -/
def hex4 (n : Nat) : String :=
  String.mk [hexDigitCh (n / 4096 % 16), hexDigitCh (n / 256 % 16),
             hexDigitCh (n / 16 % 16), hexDigitCh (n % 16)]

/-- Escape one character as json.dumps does with its default ensure_ascii:
the two-character escapes for quote, backslash and common controls, unicode
escapes for the remaining controls and for every character above 0x7e, and
surrogate pair escapes beyond the basic plane. -/
def escChar (c : Char) : String :=
  if c = '\x22' then "\\\x22"
  else if c = '\\' then "\\\\"
  else if c = '\n' then "\\n"
  else if c = '\t' then "\\t"
  else if c = '\r' then "\\r"
  else if c = '\x08' then "\\b"
  else if c = '\x0c' then "\\f"
  else if c.toNat < 0x20 then "\\u" ++ hex4 c.toNat
  else if c.toNat < 0x7f then String.mk [c]
  else if c.toNat ≤ 0xffff then "\\u" ++ hex4 c.toNat
  else
    "\\u" ++ hex4 (0xd800 + (c.toNat - 0x10000) / 0x400) ++
    "\\u" ++ hex4 (0xdc00 + (c.toNat - 0x10000) % 0x400)

/-- Serialize a string literal with quotes and escapes. -/
def quoteStr (s : String) : String :=
  "\x22" ++ String.join (s.data.map escChar) ++ "\x22"

/-- Decimal rendering of a Python float carried as m * 10 ^ e. Python repr
prints simple magnitudes this way (and falls back to scientific notation for
extreme exponents, which no claim exercises, so plain decimal expansion is
used throughout). -/
def floatRepr (m : Int) (e : Int) : String :=
  let sign := if m < 0 then "-" else ""
  let mag := m.natAbs
  if 0 ≤ e then sign ++ toString (mag * 10 ^ e.toNat) ++ ".0"
  else
    let k := (-e).toNat
    let ds := toString mag
    let ds := String.mk (List.replicate (k + 1 - min (k + 1) ds.data.length) '0') ++ ds
    sign ++ String.mk (ds.data.take (ds.data.length - k)) ++ "." ++
      String.mk (ds.data.drop (ds.data.length - k))

/-- Indentation in front of an element at nesting level lvl when dumping with
indent=2. -/
def indentPad (lvl : Nat) : String := String.mk (List.replicate (2 * lvl) ' ')

mutual

/-- Python json.dumps(value, indent=2) with the default separators and
ensure_ascii, the exact call the stream processor makes for Inform events.
lvl is the current nesting level. -/
def json_dumps_v : Json → Nat → String
  | .null, _ => "null"
  | .bool true, _ => "true"
  | .bool false, _ => "false"
  | .num n, _ => toString n
  | .float m e, _ => floatRepr m e
  | .inf, _ => "Infinity"
  | .ninf, _ => "-Infinity"
  | .nan, _ => "NaN"
  | .str s, _ => quoteStr s
  | .arr .nil, _ => "[]"
  | .arr items, lvl =>
    "[\n" ++ json_dumps_items items (lvl + 1) ++ "\n" ++ indentPad lvl ++ "]"
  | .obj .nil, _ => "\x7b\x7d"
  | .obj kvs, lvl =>
    "\x7b\n" ++ json_dumps_members kvs (lvl + 1) ++ "\n" ++ indentPad lvl ++ "\x7d"

/-- Array items, one per line, separated by commas, each at the given level. -/
def json_dumps_items : JItems → Nat → String
  | .nil, _ => ""
  | .cons h .nil, lvl => indentPad lvl ++ json_dumps_v h lvl
  | .cons h t, lvl =>
    indentPad lvl ++ json_dumps_v h lvl ++ ",\n" ++ json_dumps_items t lvl

/-- Object members, one per line, separated by commas, each at the given
level, with the default key separator of a colon and a space. -/
def json_dumps_members : JMembers → Nat → String
  | .nil, _ => ""
  | .cons k v .nil, lvl => indentPad lvl ++ quoteStr k ++ ": " ++ json_dumps_v v lvl
  | .cons k v t, lvl =>
    indentPad lvl ++ quoteStr k ++ ": " ++ json_dumps_v v lvl ++ ",\n" ++
    json_dumps_members t lvl

end

/-- Top level entry for json.dumps(value, indent=2). -/
def json_dumps (v : Json) : String := json_dumps_v v 0

-- The SSE stream processor (AgentforceClient.stream_message) ------------------

/-- One observable action of the stream generator: a yielded output fragment,
a progress notification sent through ctx.info, or an elicitation question
passed to ctx.elicit. -/
inductive Ev where
  | frag (v : Json)
  | progress (v : Json)
  | ask (v : Json)

/-- A Python exception escaping the generator body. Only these can arise in
the event dispatch: KeyError from a missing dict key, TypeError from
iterating or indexing a non-container, AttributeError from calling .get on a
value that is not a dict. -/
inductive PyErr where
  | keyError (k : String)
  | typeError
  | attributeError
deriving DecidableEq, Repr

/-- How the stream generator ends: the end of the line loop or an explicit
return (ok), an uncaught exception (exn), or model fuel exhaustion for an
unbounded elicitation chain (fuelOut, never reached with enough fuel). -/
inductive RunStatus where
  | ok
  | exn (e : PyErr)
  | fuelOut
deriving DecidableEq, Repr

/-- What one SSE line decides for the rest of the loop: keep consuming lines,
return from the generator, raise, or run out of model fuel. -/
inductive LineCont where
  | next
  | stop
  | raise (e : PyErr)
  | fuel
deriving DecidableEq, Repr

/-- The answer of ctx.elicit(question, response_type=str): an action string
and, for accept, the elicited text. -/
structure Elic where
  action : String
  data : String

/-- The kind of value ctx.elicit returns comes from the elicitation provider;
the model takes it as a function from the question value. -/
def ElicitFn : Type := Json → Elic

/-- Comparison of a dict.get result with a string literal, as in the Python
test events[event].get("type") == "TextChunk": true exactly when the key was
present with that string value. -/
def isTypeTag (t : Option Json) (s : String) : Bool :=
  match t with
  | some (.str x) => x = s
  | _ => false

/-- Dispatch on one message payload m = events["message"], mirroring the
elif chain of stream_message. send is the recursive call
stream_message(session_id, answer, ctx) used on an accepted elicitation, ctx
tells whether a FastMCP context is attached, elicit models ctx.elicit. -/
def messageStep (send : String → List Ev × RunStatus) (ctx : Bool)
    (elicit : ElicitFn) (m : Json) : List Ev × LineCont :=
  match m with
  | .obj mk =>
    let t := jmLookup mk "type"
    if isTypeTag t "TextChunk" then
      match jmLookup mk "message" with
      | some v => ([.frag v], .next)
      | none => ([], .raise (.keyError "message"))
    else if isTypeTag t "Inform" then
      match jmLookup mk "result" with
      | some r => ([.frag (.str ("\n\n" ++ json_dumps r))], .next)
      | none => ([], .raise (.keyError "result"))
    else if isTypeTag t "ProgressIndicator" then
      if ctx then
        match jmLookup mk "message" with
        | some v => ([.progress v], .next)
        | none => ([], .raise (.keyError "message"))
      else ([], .next)
    else if isTypeTag t "Inquire" then
      match jmLookup mk "message" with
      | none => ([], .raise (.keyError "message"))
      | some q =>
        if ctx then
          let e := elicit q
          if e.action = "accept" then
            let inner := send e.data
            let pre := Ev.ask q :: Ev.frag (.str ("\n\n" ++ e.data ++ "\n\n")) :: inner.1
            match inner.2 with
            | .ok => (pre, .next)
            | .exn er => (pre, .raise er)
            | .fuelOut => (pre, .fuel)
          else ([.ask q], .stop)
        else ([], .next)
    else ([], .next)
  | _ => ([], .raise .attributeError)

/-- The Python loop for event in events over one parsed payload. Iterating a
dict visits its keys and only the key "message" does anything; iterating a
list compares each element with "message" and indexing the list with that
string raises TypeError; iterating a string visits one-character strings,
none of which equals "message"; every other value refuses iteration with
TypeError. -/
def payloadStep (send : String → List Ev × RunStatus) (ctx : Bool)
    (elicit : ElicitFn) (v : Json) : List Ev × LineCont :=
  match v with
  | .obj kvs =>
    match jmLookup kvs "message" with
    | some m => messageStep send ctx elicit m
    | none => ([], .next)
  | .arr xs => if jiAny xs pyEqStrMessage then ([], .raise .typeError) else ([], .next)
  | .str _ => ([], .next)
  | _ => ([], .raise .typeError)

/-- Handle one raw SSE line: lines without the data: head are ignored, the
remainder of a data: line is stripped and parsed, a parse failure is caught,
logged and skipped, and a parsed payload goes through the event loop. -/
def lineStep (send : String → List Ev × RunStatus) (ctx : Bool)
    (elicit : ElicitFn) (l : String) : List Ev × LineCont :=
  if pyStartswith l "data:" then
    match json_loads (pyStripWs (pyLstripSet l dataChars)) with
    | some payload => payloadStep send ctx elicit payload
    | none => ([], .next)
  else ([], .next)

/-- Consume the SSE lines of one streaming response in order, accumulating
the observable actions in order. -/
def runLines (send : String → List Ev × RunStatus) (ctx : Bool)
    (elicit : ElicitFn) : List String → List Ev × RunStatus
  | [] => ([], .ok)
  | l :: rest =>
    match lineStep send ctx elicit l with
    | (evs, .next) =>
      let r := runLines send ctx elicit rest
      (evs ++ r.1, r.2)
    | (evs, .stop) => (evs, .ok)
    | (evs, .raise e) => (evs, .exn e)
    | (evs, .fuel) => (evs, .fuelOut)

/-- The environment of one session as the stream processor sees it: the
server turns each sent message into the SSE lines of the streaming response
on that session, and the elicitation provider answers each Inquire
question. -/
structure StreamEnv where
  server : String → List String
  elicit : ElicitFn

/-- AgentforceClient.stream_message restricted to one session: send a
message, consume the resulting SSE stream, recursing into a fresh send on
the same session for every accepted elicitation. fuel bounds the recursion
depth of the model; any fuel larger than the elicitation chain length gives
the true behavior. -/
def stream_message (env : StreamEnv) (ctx : Bool) : Nat → String → List Ev × RunStatus
  | 0, _ => ([], .fuelOut)
  | f+1, message => runLines (stream_message env ctx f) ctx env.elicit (env.server message)

/-- The yielded output fragments among the observable actions, in order. -/
def fragsOf (evs : List Ev) : List Json :=
  evs.filterMap (fun e => match e with | .frag v => some v | _ => none)

/-- The yielded output fragments that are strings, rendered as strings (all
fragments of the claims are strings). -/
def fragTexts (evs : List Ev) : List String :=
  evs.filterMap (fun e => match e with | .frag (.str s) => some s | _ => none)

/-- The questions passed to ctx.elicit, in order. -/
def asksOf (evs : List Ev) : List Json :=
  evs.filterMap (fun e => match e with | .ask v => some v | _ => none)

/-- The progress notifications sent through ctx.info, in order. -/
def progressOf (evs : List Ev) : List Json :=
  evs.filterMap (fun e => match e with | .progress v => some v | _ => none)

-- The token manager (AuthManager) ---------------------------------------------

/-- A Python float as the token expiry clock sees it: a finite rational, an
infinity, or NaN. time.time() itself is always finite. -/
inductive PyFloat where
  | finite (q : ℚ)
  | inf
  | ninf
  | nan
deriving DecidableEq, Repr

/-- The Python expression now + expires_in for a float now and a JSON value
expires_in: numbers and booleans add (a Python bool is an int), the json
module infinities and NaN absorb, and every other value raises TypeError
(modelled as none). -/
def pyAddTime (now : ℚ) (v : Json) : Option PyFloat :=
  match v with
  | .num n => some (.finite (now + n))
  | .float m e => some (.finite (now + m * (10 : ℚ) ^ e))
  | .bool b => some (.finite (now + if b then 1 else 0))
  | .inf => some .inf
  | .ninf => some .ninf
  | .nan => some .nan
  | _ => none

/-- The Python comparison x > q between the stored expiry and a finite
reference time: false for NaN, as in IEEE comparison. -/
def pyFloatGt (x : PyFloat) (q : ℚ) : Bool :=
  match x with
  | .finite a => Rat.blt q a
  | .inf => true
  | .ninf => false
  | .nan => false

/-- Python truthiness of a JSON value, as tested by if self._access_token. -/
def jsonTruthy : Json → Bool
  | .null => false
  | .bool b => b
  | .num n => n != 0
  | .float m _ => m != 0
  | .inf => true
  | .ninf => true
  | .nan => true
  | .str s => s != ""
  | .arr .nil => false
  | .arr _ => true
  | .obj .nil => false
  | .obj _ => true

/-- Truthiness of the optional cached token (None is falsy). -/
def pyTruthyOpt : Option Json → Bool
  | none => false
  | some v => jsonTruthy v

/-- What the token endpoint does for one POST: fail at the transport level,
or answer with a status code and a body text. -/
inductive TokenResp where
  | netError
  | resp (status : Nat) (text : String)

/-- The environment of the token manager: the current time (held fixed
during one call) and the answer of the token endpoint to the n-th POST. -/
structure AuthEnv where
  now : ℚ
  tokenResponses : Nat → TokenResp

/-- The mutable state of AuthManager: the cached token value (any object the
response carried), its expiry, and a count of token endpoint POSTs made so
far (model bookkeeping for the no-network-call claims). -/
structure AuthSt where
  access_token : Option Json
  expires_at : PyFloat
  fetches : Nat

/-- The underlying cause wrapped by the generic exception handler of
_fetch_new_token. -/
inductive FetchCause where
  | network
  | badJson
  | notDict
  | missingKey (k : String)
  | badExpiresIn
deriving DecidableEq, Repr

/-- The RuntimeError raised by _fetch_new_token: one kind with two shapes,
the OAuth HTTP error carrying status and body, and the generic wrapper
carrying its cause. -/
inductive AuthErr where
  | httpStatus (status : Nat) (text : String)
  | wrapped (cause : FetchCause)
deriving DecidableEq, Repr

/-- The httpx success range tested by raise_for_status. -/
def is2xx (code : Nat) : Bool := 200 ≤ code && code < 300

/-- AuthManager._fetch_new_token: POST the client credentials form to the
token endpoint; on a 2xx answer parse the JSON body, store the access_token
value in the cache, then compute the expiry as now + expires_in with a
default of 3600. Every failure becomes one RuntimeError kind; note that the
token value is assigned one line before the expiry, so a failure in the
expiry computation leaves the new token behind. -/
def _fetch_new_token (env : AuthEnv) (st : AuthSt) : Except AuthErr Unit × AuthSt :=
  let st1 : AuthSt := { st with fetches := st.fetches + 1 }
  match env.tokenResponses st.fetches with
  | .netError => (.error (.wrapped .network), st1)
  | .resp code text =>
    if is2xx code then
      match json_loads text with
      | none => (.error (.wrapped .badJson), st1)
      | some (.obj kvs) =>
        match jmLookup kvs "access_token" with
        | none => (.error (.wrapped (.missingKey "access_token")), st1)
        | some v =>
          let st2 := { st1 with access_token := some v }
          match pyAddTime env.now ((jmLookup kvs "expires_in").getD (.num 3600)) with
          | none => (.error (.wrapped .badExpiresIn), st2)
          | some x => (.ok (), { st2 with expires_at := x })
      | some _ => (.error (.wrapped .notDict), st1)
    else (.error (.httpStatus code text), st1)

/-- AuthManager.get_valid_token: return the cached token while it is truthy
and not within 60 seconds of expiry, otherwise fetch a new one and return
whatever the cache then holds; a fetch error propagates. -/
def get_valid_token (env : AuthEnv) (st : AuthSt) :
    Except AuthErr (Option Json) × AuthSt :=
  if pyTruthyOpt st.access_token && pyFloatGt st.expires_at (env.now + 60) then
    (.ok st.access_token, st)
  else
    match _fetch_new_token env st with
    | (.ok _, st1) => (.ok st1.access_token, st1)
    | (.error e, st1) => (.error e, st1)

-- The authenticated request wrapper (AgentforceClient._authenticated_request) -

/-- One HTTP response of the Agentforce API. -/
structure ApiResp where
  status : Nat
  text : String

/-- The environment of one wrapper call: the auth environment and the
response of the API to the k-th request this call issues (the wrapper issues
at most two). -/
structure ReqEnv where
  auth : AuthEnv
  responses : Nat → ApiResp

/-- The error surfaced by _authenticated_request: the RuntimeError built
from an HTTPStatusError of the final response, or a propagated token
acquisition error. -/
inductive ReqErr where
  | apiError (status : Nat) (text : String)
  | authError (e : AuthErr)
deriving DecidableEq, Repr

/-- The outcome of one wrapper call, with the observable counts the claims
speak about: how many API requests were issued and how many forced token
refreshes (direct _fetch_new_token calls from the 401 branch) ran. -/
structure ReqOut where
  result : Except ReqErr ApiResp
  state : AuthSt
  requests : Nat
  forcedRefreshes : Nat

/-- AgentforceClient._authenticated_request: obtain a token, issue the
request; on a 401 force one refresh, rebuild the header via get_valid_token
and retry exactly once; then raise_for_status on the final response, turning
any non-2xx into the terminal RuntimeError. Header assembly is elided: it
carries the token but does not affect control flow. -/
def _authenticated_request (env : ReqEnv) (st : AuthSt) : ReqOut :=
  match get_valid_token env.auth st with
  | (.error e, st1) => ⟨.error (.authError e), st1, 0, 0⟩
  | (.ok _, st1) =>
    let r1 := env.responses 0
    if r1.status = 401 then
      match _fetch_new_token env.auth st1 with
      | (.error e, st2) => ⟨.error (.authError e), st2, 1, 1⟩
      | (.ok _, st2) =>
        match get_valid_token env.auth st2 with
        | (.error e, st3) => ⟨.error (.authError e), st3, 1, 1⟩
        | (.ok _, st3) =>
          let r2 := env.responses 1
          if is2xx r2.status then ⟨.ok r2, st3, 2, 1⟩
          else ⟨.error (.apiError r2.status r2.text), st3, 2, 1⟩
    else
      if is2xx r1.status then ⟨.ok r1, st1, 1, 0⟩
      else ⟨.error (.apiError r1.status r1.text), st1, 1, 0⟩

/-- Shape test: values to which a float can be added without a TypeError
(numbers, booleans and the json module constants). -/
def addableTime : Json → Bool
  | .num _ => true
  | .float _ _ => true
  | .bool _ => true
  | .inf => true
  | .ninf => true
  | .nan => true
  | _ => false

/-- A well behaved token endpoint answer: a 2xx response whose body is a
JSON object with an access_token member and an absent or addable
expires_in. Under such answers every fetch succeeds. -/
def TokenRespGood : TokenResp → Prop
  | .netError => False
  | .resp code text =>
    is2xx code = true
    ∧ ∃ kvs, json_loads text = some (Json.obj kvs)
      ∧ (∃ v, jmLookup kvs "access_token" = some v)
      ∧ addableTime ((jmLookup kvs "expires_in").getD (Json.num 3600)) = true

-- Concrete data for the claims ------------------------------------------------

/-- A recursive send that is never reached: yields nothing and completes. -/
def sendStub : String → List Ev × RunStatus := fun _ => ([], .ok)

/-- An elicitation provider answering with an action that is neither accept
nor decline. -/
def elicStub : ElicitFn := fun _ => ⟨"none", ""⟩

/-- An elicitation provider that declines every question. -/
def elicDecline : ElicitFn := fun _ => ⟨"decline", ""⟩

/-- The TextChunk example line of the spec. -/
def lineTextHi : String := "data: \x7b\"message\":\x7b\"type\":\"TextChunk\",\"message\":\"Hi\"\x7d\x7d"

/-- The Inform example line of the spec. -/
def lineInformA : String := "data: \x7b\"message\":\x7b\"type\":\"Inform\",\"result\":\x7b\"a\":1\x7d\x7d\x7d"

/-- Another well formed TextChunk line. -/
def lineTextBye : String := "data: \x7b\"message\":\x7b\"type\":\"TextChunk\",\"message\":\"Bye\"\x7d\x7d"

/-- The malformed example line of the spec. -/
def lineNotJson : String := "data: not-json"

/-- A well formed Inquire line. -/
def lineInquire : String := "data: \x7b\"message\":\x7b\"type\":\"Inquire\",\"message\":\"Which city?\"\x7d\x7d"

/-- A TextChunk line that the server sends after the Inquire on the outer
stream. -/
def lineTextTail : String := "data: \x7b\"message\":\x7b\"type\":\"TextChunk\",\"message\":\"TAIL\"\x7d\x7d"

/-- The TextChunk line of the inner recursive stream. -/
def lineTextInner : String := "data: \x7b\"message\":\x7b\"type\":\"TextChunk\",\"message\":\"INNER\"\x7d\x7d"

/-- A syntactically valid data line whose TextChunk payload has no message
field. -/
def lineChunkNoMsg : String := "data: \x7b\"message\":\x7b\"type\":\"TextChunk\"\x7d\x7d"

/-- A syntactically valid data line whose Inform payload has no result
field. -/
def lineInformNoRes : String := "data: \x7b\"message\":\x7b\"type\":\"Inform\"\x7d\x7d"

/-- A syntactically valid data line whose Inquire payload has no message
field. -/
def lineInquireNoMsg : String := "data: \x7b\"message\":\x7b\"type\":\"Inquire\"\x7d\x7d"

/-- A session whose first stream answers the opening question with an
Inquire followed by one more TextChunk, whose stream for the elicited
answer Paris is a single TextChunk, and whose elicitation provider accepts
with Paris. -/
def envC1 : StreamEnv :=
  { server := fun m =>
      if m = "q0" then [lineInquire, lineTextTail]
      else if m = "Paris" then [lineTextInner] else []
    elicit := fun _ => ⟨"accept", "Paris"⟩ }

/-- A session whose stream for the message m starts with a TextChunk payload
that has no message field, followed by a well formed line. -/
def envC9 : StreamEnv :=
  { server := fun m => if m = "m" then [lineChunkNoMsg, lineTextHi] else []
    elicit := elicStub }

/-- An auth state with no cached token. -/
def stEmpty : AuthSt := ⟨none, .finite 0, 0⟩

/-- A token endpoint whose 2xx body carries a string expires_in: the token
value is stored, then the expiry computation raises. -/
def envC7 : AuthEnv :=
  ⟨0, fun _ => .resp 200 "\x7b\"access_token\":\"X\",\"expires_in\":\"oops\"\x7d"⟩

/-- A well behaved token endpoint body. -/
def goodTokenBody : String := "\x7b\"access_token\":\"fresh\",\"expires_in\":3600\x7d"

/-- An auth environment whose token endpoint always answers well. -/
def envAuthGood : AuthEnv := ⟨100, fun _ => .resp 200 goodTokenBody⟩

/-- An auth state holding a token valid far beyond the 60 second skew at the
time of envAuthGood. -/
def stCached : AuthSt := ⟨some (.str "tok"), .finite 200, 0⟩

/-- A request environment whose API answers 401 to both the first request
and the retry, over a well behaved token endpoint. -/
def envC2 : ReqEnv :=
  ⟨envAuthGood, fun n => if n = 0 then ⟨401, "expired"⟩ else ⟨401, "expired again"⟩⟩

-- Claims about the stream processor -------------------------------------------

/-- C9: there is a syntactically valid data line, with a payload that parses
as JSON and holds a message object of type TextChunk without a message field
(likewise Inform without result), on which stream_message raises an uncaught
KeyError that aborts the whole stream: the well formed line after it
contributes nothing, because only JSON parse failures are caught and
skipped. -/
theorem claim_C9_valid_line_uncaught_exception :
  json_loads (pyStripWs (pyLstripSet lineChunkNoMsg dataChars))
      = some (Json.obj (.cons "message"
          (Json.obj (.cons "type" (Json.str "TextChunk") .nil)) .nil))
  ∧ stream_message envC9 false 2 "m" = ([], RunStatus.exn (PyErr.keyError "message"))
  ∧ stream_message envC9 true 2 "m" = ([], RunStatus.exn (PyErr.keyError "message"))
  ∧ (runLines sendStub true elicStub [lineInformNoRes]).2
      = RunStatus.exn (PyErr.keyError "result") :=
  ⟨rfl, rfl, rfl, rfl⟩

/-- C4: decoding the two example SSE lines yields exactly the fragment Hi
and the fragment of two newlines followed by the indent 2 serialization of
the result object, in that order; in general a TextChunk event yields the
message.message value as a fragment and an Inform event yields two newlines
followed by the indent 2 JSON serialization of message.result, each followed
by the processing of the remaining lines. -/
theorem claim_C4_textchunk_inform_decoding :
  (runLines sendStub false elicStub [lineTextHi, lineInformA]
    = ([Ev.frag (Json.str "Hi"),
        Ev.frag (Json.str "\n\n\x7b\n  \x22a\x22: 1\n\x7d")], RunStatus.ok))
  ∧ (∀ send ctx elicit l rest pl mk v,
      pyStartswith l "data:" = true →
      json_loads (pyStripWs (pyLstripSet l dataChars)) = some (Json.obj pl) →
      jmLookup pl "message" = some (Json.obj mk) →
      jmLookup mk "type" = some (Json.str "TextChunk") →
      jmLookup mk "message" = some v →
      runLines send ctx elicit (l :: rest)
        = (Ev.frag v :: (runLines send ctx elicit rest).1,
           (runLines send ctx elicit rest).2))
  ∧ (∀ send ctx elicit l rest pl mk r,
      pyStartswith l "data:" = true →
      json_loads (pyStripWs (pyLstripSet l dataChars)) = some (Json.obj pl) →
      jmLookup pl "message" = some (Json.obj mk) →
      jmLookup mk "type" = some (Json.str "Inform") →
      jmLookup mk "result" = some r →
      runLines send ctx elicit (l :: rest)
        = (Ev.frag (Json.str ("\n\n" ++ json_dumps r)) :: (runLines send ctx elicit rest).1,
           (runLines send ctx elicit rest).2)) := by
  refine ⟨rfl, ?_, ?_⟩
  · intro send ctx elicit l rest pl mk v h1 h2 h3 h4 h5
    have hstep : lineStep send ctx elicit l = ([Ev.frag v], .next) := by
      simp [lineStep, h1, h2, payloadStep, h3, messageStep, h4, isTypeTag, h5]
    simp [runLines, hstep]
  · intro send ctx elicit l rest pl mk r h1 h2 h3 h4 h5
    have hstep : lineStep send ctx elicit l
        = ([Ev.frag (Json.str ("\n\n" ++ json_dumps r))], .next) := by
      simp [lineStep, h1, h2, payloadStep, h3, messageStep, h4, isTypeTag, h5]
    simp [runLines, hstep]

/-- C4 witness: the TextChunk part applied to the Hi line in front of an
empty remainder. -/
theorem claim_C4_textchunk_inform_decoding_witness :
  runLines sendStub true elicStub [lineTextHi]
    = (Ev.frag (Json.str "Hi") :: (runLines sendStub true elicStub []).1,
       (runLines sendStub true elicStub []).2) :=
  claim_C4_textchunk_inform_decoding.2.1 sendStub true elicStub lineTextHi []
    (.cons "message" (Json.obj (.cons "type" (Json.str "TextChunk")
      (.cons "message" (Json.str "Hi") .nil))) .nil)
    (.cons "type" (Json.str "TextChunk") (.cons "message" (Json.str "Hi") .nil))
    (Json.str "Hi") rfl rfl rfl rfl rfl

/-- C6: when an Inquire event is answered with decline, or with any action
other than accept, the sequence terminates normally right there: the result
status is ok (no exception), no error fragment and no further output
fragment is produced, whatever lines remain. -/
theorem claim_C6_decline_ends_normally :
  ∀ send elicit l rest pl mk q,
    pyStartswith l "data:" = true →
    json_loads (pyStripWs (pyLstripSet l dataChars)) = some (Json.obj pl) →
    jmLookup pl "message" = some (Json.obj mk) →
    jmLookup mk "type" = some (Json.str "Inquire") →
    jmLookup mk "message" = some q →
    (elicit q).action ≠ "accept" →
    runLines send true elicit (l :: rest) = ([Ev.ask q], RunStatus.ok)
    ∧ fragsOf (runLines send true elicit (l :: rest)).1 = [] := by
  intro send elicit l rest pl mk q h1 h2 h3 h4 h5 h6
  have hstep : lineStep send true elicit l = ([Ev.ask q], .stop) := by
    simp [lineStep, h1, h2, payloadStep, h3, messageStep, h4, isTypeTag, h5, h6]
  have heq : runLines send true elicit (l :: rest) = ([Ev.ask q], RunStatus.ok) := by
    simp [runLines, hstep]
  exact ⟨heq, by rw [heq]; simp [fragsOf]⟩

/-- C6 witness: a declined Inquire in front of a further TextChunk line
produces nothing and completes. -/
theorem claim_C6_decline_ends_normally_witness :
  runLines sendStub true elicDecline [lineInquire, lineTextTail]
      = ([Ev.ask (Json.str "Which city?")], RunStatus.ok)
    ∧ fragsOf (runLines sendStub true elicDecline [lineInquire, lineTextTail]).1 = [] :=
  claim_C6_decline_ends_normally sendStub elicDecline lineInquire [lineTextTail]
    (.cons "message" (Json.obj (.cons "type" (Json.str "Inquire")
      (.cons "message" (Json.str "Which city?") .nil))) .nil)
    (.cons "type" (Json.str "Inquire") (.cons "message" (Json.str "Which city?") .nil))
    (Json.str "Which city?") rfl rfl rfl rfl rfl (by decide)

/-- C10 counterexample: with no context attached, the Inquire payload
without a message field raises an uncaught KeyError, terminating the
sequence, where the claim says Inquire events do not terminate the sequence
with no context attached. -/
theorem claim_C10_counterexample_inquire_no_message :
  (runLines sendStub false elicStub [lineInquireNoMsg]).2
      = RunStatus.exn (PyErr.keyError "message")
  ∧ (runLines sendStub false elicStub []).2 = RunStatus.ok
  ∧ RunStatus.exn (PyErr.keyError "message") ≠ RunStatus.ok :=
  ⟨rfl, rfl, by decide⟩

/-- C10 amended: with no context attached, an Inquire event that carries its
question text and any ProgressIndicator event produce no output fragment,
trigger no elicitation and no progress notification, and processing
continues with the remaining lines of the same stream; an Inquire payload
without a message field is the exception, since its question is read in a
logging call before the context check, raising KeyError even with no
context. -/
theorem claim_C10_no_context_inquire_progress_ignored :
  ∀ send elicit l rest pl mk,
    pyStartswith l "data:" = true →
    json_loads (pyStripWs (pyLstripSet l dataChars)) = some (Json.obj pl) →
    jmLookup pl "message" = some (Json.obj mk) →
    ((jmLookup mk "type" = some (Json.str "Inquire")
        ∧ ∃ q, jmLookup mk "message" = some q)
      ∨ jmLookup mk "type" = some (Json.str "ProgressIndicator")) →
    runLines send false elicit (l :: rest) = runLines send false elicit rest := by
  intro send elicit l rest pl mk h1 h2 h3 h4
  have hstep : lineStep send false elicit l = ([], .next) := by
    rcases h4 with ⟨ht, q, hq⟩ | ht
    · simp [lineStep, h1, h2, payloadStep, h3, messageStep, ht, isTypeTag, hq]
    · simp [lineStep, h1, h2, payloadStep, h3, messageStep, ht, isTypeTag]
  simp [runLines, hstep]

/-- C10 witness: the amended statement applied to a well formed Inquire line
with no context attached. -/
theorem claim_C10_no_context_inquire_progress_ignored_witness :
  runLines sendStub false elicStub [lineInquire, lineTextHi]
      = runLines sendStub false elicStub [lineTextHi] :=
  claim_C10_no_context_inquire_progress_ignored sendStub elicStub lineInquire [lineTextHi]
    (.cons "message" (Json.obj (.cons "type" (Json.str "Inquire")
      (.cons "message" (Json.str "Which city?") .nil))) .nil)
    (.cons "type" (Json.str "Inquire") (.cons "message" (Json.str "Which city?") .nil))
    rfl rfl rfl (Or.inl ⟨rfl, Json.str "Which city?", rfl⟩)

/-- C5: a data line whose remainder is not valid JSON is logged and skipped
without aborting the stream, and a line not prefixed with data: is ignored:
processing the line list with either kind of line inserted anywhere equals
processing without it, so the fragments of the valid lines before and after
still appear, in arrival order; concretely the malformed example line, and
likewise a line without the data: head, between two valid TextChunk lines
leave exactly their fragments in order. -/
theorem claim_C5_malformed_line_skipped :
  (∀ send ctx elicit before after bad,
    pyStartswith bad "data:" = true →
    json_loads (pyStripWs (pyLstripSet bad dataChars)) = none →
    runLines send ctx elicit (before ++ bad :: after)
      = runLines send ctx elicit (before ++ after))
  ∧ (∀ send ctx elicit before after l,
    pyStartswith l "data:" = false →
    runLines send ctx elicit (before ++ l :: after)
      = runLines send ctx elicit (before ++ after))
  ∧ fragTexts (runLines sendStub false elicStub [lineTextHi, lineNotJson, lineTextBye]).1
      = ["Hi", "Bye"]
  ∧ (runLines sendStub false elicStub [lineTextHi, lineNotJson, lineTextBye]).2
      = RunStatus.ok
  ∧ fragTexts (runLines sendStub false elicStub [lineTextHi, "event: ping", lineTextBye]).1
      = ["Hi", "Bye"]
  ∧ (runLines sendStub false elicStub [lineTextHi, "event: ping", lineTextBye]).2
      = RunStatus.ok := by
  have key : ∀ (send : String → List Ev × RunStatus) (ctx : Bool) (elicit : ElicitFn)
      (l : String), lineStep send ctx elicit l = ([], LineCont.next) →
      ∀ before after, runLines send ctx elicit (before ++ l :: after)
        = runLines send ctx elicit (before ++ after) := by
    intro send ctx elicit l hskip before after
    induction before with
    | nil => simp [runLines, hskip]
    | cons x tl ih =>
      simp only [List.cons_append, runLines]
      rcases h : lineStep send ctx elicit x with ⟨evs, cont⟩
      cases cont <;> simp [ih]
  refine ⟨?_, ?_, rfl, rfl, rfl, rfl⟩
  · intro send ctx elicit before after bad h1 h2
    exact key send ctx elicit bad (by simp [lineStep, h1, h2]) before after
  · intro send ctx elicit before after l h1
    exact key send ctx elicit l (by simp [lineStep, h1]) before after

/-- C5 witness: the insertion equations applied to the malformed example
line and to a line without the data: head, each between one leading line and
one trailing line. -/
theorem claim_C5_malformed_line_skipped_witness :
  runLines sendStub false elicStub ([lineTextHi] ++ lineNotJson :: [lineTextBye])
      = runLines sendStub false elicStub ([lineTextHi] ++ [lineTextBye])
  ∧ runLines sendStub false elicStub ([lineTextHi] ++ "event: ping" :: [lineTextBye])
      = runLines sendStub false elicStub ([lineTextHi] ++ [lineTextBye]) :=
  ⟨claim_C5_malformed_line_skipped.1 sendStub false elicStub [lineTextHi] [lineTextBye]
     lineNotJson rfl rfl,
   claim_C5_malformed_line_skipped.2.1 sendStub false elicStub [lineTextHi] [lineTextBye]
     "event: ping" rfl⟩

/-- C1 counterexample: in the concrete session envC1 the accepted Inquire
produces the wrapped answer and the fragments of the fresh recursive send,
but the outer stream is not abandoned: its remaining TextChunk line still
contributes the fragment TAIL after the recursive fragments, where the
claim says the remaining lines contribute no further fragments. -/
theorem claim_C1_counterexample_outer_not_abandoned :
  fragTexts (stream_message envC1 true 3 "q0").1 = ["\n\nParis\n\n", "INNER", "TAIL"]
  ∧ (stream_message envC1 true 3 "q0").2 = RunStatus.ok
  ∧ fragTexts (stream_message envC1 true 3 "q0").1 ≠ ["\n\nParis\n\n", "INNER"] := by
  refine ⟨rfl, rfl, ?_⟩
  intro h
  rw [show fragTexts (stream_message envC1 true 3 "q0").1
      = ["\n\nParis\n\n", "INNER", "TAIL"] from rfl] at h
  simp at h

/-- C1 amended: on an Inquire answered with accept, the stream produces the
elicited answer text surrounded by blank lines, then every fragment of a
fresh recursive send of that answer on the same session, in order and in
place; consumption of the outer stream's remaining lines then resumes, so
the outer response can still contribute fragments after the recursive ones
(it is not abandoned). -/
theorem claim_C1_accept_recursive_send :
  ∀ env f msg l rest pl mk q,
    env.server msg = l :: rest →
    pyStartswith l "data:" = true →
    json_loads (pyStripWs (pyLstripSet l dataChars)) = some (Json.obj pl) →
    jmLookup pl "message" = some (Json.obj mk) →
    jmLookup mk "type" = some (Json.str "Inquire") →
    jmLookup mk "message" = some q →
    (env.elicit q).action = "accept" →
    (stream_message env true f (env.elicit q).data).2 = RunStatus.ok →
    stream_message env true (f+1) msg
      = ((Ev.ask q :: Ev.frag (Json.str ("\n\n" ++ (env.elicit q).data ++ "\n\n")) ::
            (stream_message env true f (env.elicit q).data).1)
          ++ (runLines (stream_message env true f) true env.elicit rest).1,
         (runLines (stream_message env true f) true env.elicit rest).2) := by
  intro env f msg l rest pl mk q hs h1 h2 h3 h4 h5 h6 h7
  have hstep : lineStep (stream_message env true f) true env.elicit l
      = (Ev.ask q :: Ev.frag (Json.str ("\n\n" ++ (env.elicit q).data ++ "\n\n")) ::
          (stream_message env true f (env.elicit q).data).1, .next) := by
    simp [lineStep, h1, h2, payloadStep, h3, messageStep, h4, isTypeTag, h5, h6, h7]
  show runLines (stream_message env true f) true env.elicit (env.server msg) = _
  rw [hs]
  simp [runLines, hstep]

/-- C1 witness: the amended statement applied to the concrete session envC1,
whose opening stream is the Inquire followed by a TextChunk line. -/
theorem claim_C1_accept_recursive_send_witness :
  stream_message envC1 true 3 "q0"
    = ((Ev.ask (Json.str "Which city?")
          :: Ev.frag (Json.str ("\n\n" ++ (envC1.elicit (Json.str "Which city?")).data ++ "\n\n"))
          :: (stream_message envC1 true 2 (envC1.elicit (Json.str "Which city?")).data).1)
        ++ (runLines (stream_message envC1 true 2) true envC1.elicit [lineTextTail]).1,
       (runLines (stream_message envC1 true 2) true envC1.elicit [lineTextTail]).2) :=
  claim_C1_accept_recursive_send envC1 2 "q0" lineInquire [lineTextTail]
    (.cons "message" (Json.obj (.cons "type" (Json.str "Inquire")
      (.cons "message" (Json.str "Which city?") .nil))) .nil)
    (.cons "type" (Json.str "Inquire") (.cons "message" (Json.str "Which city?") .nil))
    (Json.str "Which city?") rfl rfl rfl rfl rfl rfl rfl rfl

-- Claims about the token manager and request wrapper --------------------------

/-- C3: while a cached token is present and the current time is strictly
before expiresAt minus 60 seconds, get_valid_token returns the identical
cached token, leaves the state untouched and makes no network call; at or
after that boundary, or with no cached token, it performs exactly one
refresh (one more fetch) and returns the newly fetched token. -/
theorem claim_C3_cache_hit_or_single_refresh :
  (∀ env st q,
    pyTruthyOpt st.access_token = true →
    st.expires_at = PyFloat.finite q →
    env.now < q - 60 →
    get_valid_token env st = (.ok st.access_token, st))
  ∧ (∀ env st code text kvs v x,
    (pyTruthyOpt st.access_token = false
      ∨ pyFloatGt st.expires_at (env.now + 60) = false) →
    env.tokenResponses st.fetches = TokenResp.resp code text →
    is2xx code = true →
    json_loads text = some (Json.obj kvs) →
    jmLookup kvs "access_token" = some v →
    pyAddTime env.now ((jmLookup kvs "expires_in").getD (Json.num 3600)) = some x →
    get_valid_token env st = (.ok (some v), ⟨some v, x, st.fetches + 1⟩)) := by
  constructor
  · intro env st q htr hexp hlt
    have hgt : pyFloatGt st.expires_at (env.now + 60) = true := by
      rw [hexp]
      show Rat.blt (env.now + 60) q = true
      show env.now + 60 < q
      linarith
    simp [get_valid_token, htr, hgt]
  · intro env st code text kvs v x hcond hresp h2xx hjson htok hadd
    have hfetch : _fetch_new_token env st = (.ok (), ⟨some v, x, st.fetches + 1⟩) := by
      simp [_fetch_new_token, hresp, h2xx, hjson, htok, hadd]
    rcases hcond with hc | hc <;> simp [get_valid_token, hc, hfetch]

/-- C3 witness: a cache hit on a token 40 seconds inside the skew window,
and a refresh from the empty cache through the well behaved endpoint. -/
theorem claim_C3_cache_hit_or_single_refresh_witness :
  get_valid_token envAuthGood stCached = (.ok (some (Json.str "tok")), stCached)
  ∧ get_valid_token envAuthGood stEmpty
      = (.ok (some (Json.str "fresh")),
         ⟨some (Json.str "fresh"),
          PyFloat.finite (envAuthGood.now + ((3600 : Int) : ℚ)), 1⟩) :=
  ⟨claim_C3_cache_hit_or_single_refresh.1 envAuthGood stCached 200 rfl rfl
     (by norm_num [envAuthGood]),
   claim_C3_cache_hit_or_single_refresh.2 envAuthGood stEmpty 200 goodTokenBody
     (.cons "access_token" (Json.str "fresh") (.cons "expires_in" (Json.num 3600) .nil))
     (Json.str "fresh") (PyFloat.finite (envAuthGood.now + ((3600 : Int) : ℚ)))
     (Or.inl rfl) rfl rfl rfl rfl rfl⟩

/-- C8: on every successful token fetch the cached token is replaced with
the access_token of the response and the cached expiry becomes the current
time plus the expires_in value of the response, with 3600 seconds taken when
expires_in is absent from the body. -/
theorem claim_C8_success_updates_cache :
  ∀ env st code text kvs v,
    env.tokenResponses st.fetches = TokenResp.resp code text →
    is2xx code = true →
    json_loads text = some (Json.obj kvs) →
    jmLookup kvs "access_token" = some v →
    ((∀ ei x, jmLookup kvs "expires_in" = some ei →
        pyAddTime env.now ei = some x →
        _fetch_new_token env st = (.ok (), ⟨some v, x, st.fetches + 1⟩))
    ∧ (∀ n : Int, jmLookup kvs "expires_in" = some (Json.num n) →
        _fetch_new_token env st
          = (.ok (), ⟨some v, PyFloat.finite (env.now + n), st.fetches + 1⟩))
    ∧ (jmLookup kvs "expires_in" = none →
        _fetch_new_token env st
          = (.ok (), ⟨some v, PyFloat.finite (env.now + 3600), st.fetches + 1⟩))) := by
  intro env st code text kvs v hresp h2xx hjson htok
  refine ⟨?_, ?_, ?_⟩
  · intro ei x hei hadd
    simp [_fetch_new_token, hresp, h2xx, hjson, htok, hei, hadd]
  · intro n hei
    simp [_fetch_new_token, hresp, h2xx, hjson, htok, hei, pyAddTime]
  · intro hei
    simp [_fetch_new_token, hresp, h2xx, hjson, htok, hei, pyAddTime]

/-- C8 witness: the explicit expires_in branch and the defaulting branch on
concrete bodies. -/
theorem claim_C8_success_updates_cache_witness :
  _fetch_new_token envAuthGood stEmpty
      = (.ok (), ⟨some (Json.str "fresh"), PyFloat.finite (envAuthGood.now + (3600 : Int)),
         stEmpty.fetches + 1⟩)
  ∧ _fetch_new_token ⟨100, fun _ => .resp 200 "\x7b\"access_token\":\"fresh\"\x7d"⟩ stEmpty
      = (.ok (), ⟨some (Json.str "fresh"), PyFloat.finite ((100 : ℚ) + 3600),
         stEmpty.fetches + 1⟩) :=
  ⟨(claim_C8_success_updates_cache envAuthGood stEmpty 200 goodTokenBody
      (.cons "access_token" (Json.str "fresh") (.cons "expires_in" (Json.num 3600) .nil))
      (Json.str "fresh") rfl rfl rfl rfl).2.1 3600 rfl,
   (claim_C8_success_updates_cache ⟨100, fun _ => .resp 200 "\x7b\"access_token\":\"fresh\"\x7d"⟩
      stEmpty 200 "\x7b\"access_token\":\"fresh\"\x7d"
      (.cons "access_token" (Json.str "fresh") .nil)
      (Json.str "fresh") rfl rfl rfl rfl).2.2 rfl⟩


/-- C7 counterexample: a 2xx token response whose expires_in is a string
makes _fetch_new_token raise after the new token value has already been
stored in the cache, so an error is raised even though a new token was
acquired, against the claimed equivalence. -/
theorem claim_C7_counterexample_token_stored_despite_error :
  _fetch_new_token envC7 stEmpty
      = (.error (AuthErr.wrapped FetchCause.badExpiresIn),
         ⟨some (Json.str "X"), PyFloat.finite 0, 1⟩)
  ∧ (⟨some (Json.str "X"), PyFloat.finite 0, 1⟩ : AuthSt).access_token
      ≠ stEmpty.access_token :=
  ⟨rfl, by simp [stEmpty]⟩

/-- C7 amended: _fetch_new_token fails with the AuthError carrying the
status code and response body on every non-2xx token endpoint response, and
with the same AuthError kind wrapping the cause on every other failure; an
error is raised exactly when the fetch did not complete, and on error the
cached expiry always keeps its prior value, but the cached token value may
already have been replaced when the failure happened in the expiry
computation. -/
theorem claim_C7_fetch_error_taxonomy :
  ∀ env st,
    (∀ code text, env.tokenResponses st.fetches = TokenResp.resp code text →
      is2xx code = false →
      _fetch_new_token env st
        = (.error (AuthErr.httpStatus code text), { st with fetches := st.fetches + 1 }))
    ∧ (env.tokenResponses st.fetches = TokenResp.netError →
      _fetch_new_token env st
        = (.error (AuthErr.wrapped FetchCause.network), { st with fetches := st.fetches + 1 }))
    ∧ (∀ e st', _fetch_new_token env st = (.error e, st') →
      (∃ code text, e = AuthErr.httpStatus code text
        ∧ env.tokenResponses st.fetches = TokenResp.resp code text
        ∧ is2xx code = false)
      ∨ (∃ c, e = AuthErr.wrapped c))
    ∧ (∀ e st', _fetch_new_token env st = (.error e, st') →
      st'.expires_at = st.expires_at)
    ∧ (∀ st', _fetch_new_token env st = (.ok (), st') →
      ∃ code text kvs v x,
        env.tokenResponses st.fetches = TokenResp.resp code text
        ∧ is2xx code = true
        ∧ json_loads text = some (Json.obj kvs)
        ∧ jmLookup kvs "access_token" = some v
        ∧ pyAddTime env.now ((jmLookup kvs "expires_in").getD (Json.num 3600)) = some x
        ∧ st' = ⟨some v, x, st.fetches + 1⟩) := by
  intro env st
  refine ⟨?_, ?_, ?_, ?_, ?_⟩
  · intro code text hr h2
    simp [_fetch_new_token, hr, h2]
  · intro hr
    simp [_fetch_new_token, hr]
  · intro e st' h
    rcases hr : env.tokenResponses st.fetches with _ | ⟨code, text⟩
    · simp [_fetch_new_token, hr] at h
      exact Or.inr ⟨.network, h.1.symm⟩
    · by_cases h2 : is2xx code = true
      · rcases hj : json_loads text with _ | val
        · simp [_fetch_new_token, hr, h2, hj] at h
          exact Or.inr ⟨.badJson, h.1.symm⟩
        · cases val with
          | obj kvs =>
            rcases htok : jmLookup kvs "access_token" with _ | v
            · simp [_fetch_new_token, hr, h2, hj, htok] at h
              exact Or.inr ⟨.missingKey "access_token", h.1.symm⟩
            · rcases hadd : pyAddTime env.now ((jmLookup kvs "expires_in").getD (Json.num 3600))
                  with _ | x
              · simp [_fetch_new_token, hr, h2, hj, htok, hadd] at h
                exact Or.inr ⟨.badExpiresIn, h.1.symm⟩
              · simp [_fetch_new_token, hr, h2, hj, htok, hadd] at h
          | null => simp [_fetch_new_token, hr, h2, hj] at h
                    exact Or.inr ⟨.notDict, h.1.symm⟩
          | bool b => simp [_fetch_new_token, hr, h2, hj] at h
                      exact Or.inr ⟨.notDict, h.1.symm⟩
          | num n => simp [_fetch_new_token, hr, h2, hj] at h
                     exact Or.inr ⟨.notDict, h.1.symm⟩
          | float m ex => simp [_fetch_new_token, hr, h2, hj] at h
                          exact Or.inr ⟨.notDict, h.1.symm⟩
          | inf => simp [_fetch_new_token, hr, h2, hj] at h
                   exact Or.inr ⟨.notDict, h.1.symm⟩
          | ninf => simp [_fetch_new_token, hr, h2, hj] at h
                    exact Or.inr ⟨.notDict, h.1.symm⟩
          | nan => simp [_fetch_new_token, hr, h2, hj] at h
                   exact Or.inr ⟨.notDict, h.1.symm⟩
          | str s => simp [_fetch_new_token, hr, h2, hj] at h
                     exact Or.inr ⟨.notDict, h.1.symm⟩
          | arr xs => simp [_fetch_new_token, hr, h2, hj] at h
                      exact Or.inr ⟨.notDict, h.1.symm⟩
      · simp [_fetch_new_token, hr, h2] at h
        exact Or.inl ⟨code, text, h.1.symm, rfl, by simpa using h2⟩
  · intro e st' h
    rcases hr : env.tokenResponses st.fetches with _ | ⟨code, text⟩
    · simp [_fetch_new_token, hr] at h
      rw [← h.2]
    · by_cases h2 : is2xx code = true
      · rcases hj : json_loads text with _ | val
        · simp [_fetch_new_token, hr, h2, hj] at h
          rw [← h.2]
        · cases val with
          | obj kvs =>
            rcases htok : jmLookup kvs "access_token" with _ | v
            · simp [_fetch_new_token, hr, h2, hj, htok] at h
              rw [← h.2]
            · rcases hadd : pyAddTime env.now ((jmLookup kvs "expires_in").getD (Json.num 3600))
                  with _ | x
              · simp [_fetch_new_token, hr, h2, hj, htok, hadd] at h
                rw [← h.2]
              · simp [_fetch_new_token, hr, h2, hj, htok, hadd] at h
          | null => simp [_fetch_new_token, hr, h2, hj] at h
                    rw [← h.2]
          | bool b => simp [_fetch_new_token, hr, h2, hj] at h
                      rw [← h.2]
          | num n => simp [_fetch_new_token, hr, h2, hj] at h
                     rw [← h.2]
          | float m ex => simp [_fetch_new_token, hr, h2, hj] at h
                          rw [← h.2]
          | inf => simp [_fetch_new_token, hr, h2, hj] at h
                   rw [← h.2]
          | ninf => simp [_fetch_new_token, hr, h2, hj] at h
                    rw [← h.2]
          | nan => simp [_fetch_new_token, hr, h2, hj] at h
                   rw [← h.2]
          | str s => simp [_fetch_new_token, hr, h2, hj] at h
                     rw [← h.2]
          | arr xs => simp [_fetch_new_token, hr, h2, hj] at h
                      rw [← h.2]
      · simp [_fetch_new_token, hr, h2] at h
        rw [← h.2]
  · intro st' h
    rcases hr : env.tokenResponses st.fetches with _ | ⟨code, text⟩
    · simp [_fetch_new_token, hr] at h
    · by_cases h2 : is2xx code = true
      · rcases hj : json_loads text with _ | val
        · simp [_fetch_new_token, hr, h2, hj] at h
        · cases val with
          | obj kvs =>
            rcases htok : jmLookup kvs "access_token" with _ | v
            · simp [_fetch_new_token, hr, h2, hj, htok] at h
            · rcases hadd : pyAddTime env.now ((jmLookup kvs "expires_in").getD (Json.num 3600))
                  with _ | x
              · simp [_fetch_new_token, hr, h2, hj, htok, hadd] at h
              · simp [_fetch_new_token, hr, h2, hj, htok, hadd] at h
                exact ⟨code, text, kvs, v, x, rfl, h2, hj, htok, hadd, h.symm⟩
          | null => simp [_fetch_new_token, hr, h2, hj] at h
          | bool b => simp [_fetch_new_token, hr, h2, hj] at h
          | num n => simp [_fetch_new_token, hr, h2, hj] at h
          | float m ex => simp [_fetch_new_token, hr, h2, hj] at h
          | inf => simp [_fetch_new_token, hr, h2, hj] at h
          | ninf => simp [_fetch_new_token, hr, h2, hj] at h
          | nan => simp [_fetch_new_token, hr, h2, hj] at h
          | str s => simp [_fetch_new_token, hr, h2, hj] at h
          | arr xs => simp [_fetch_new_token, hr, h2, hj] at h
      · simp [_fetch_new_token, hr, h2] at h

/-- C7 witness: the non-2xx branch of the amended statement at a concrete
403 endpoint answer, carrying that status and body in the error. -/
theorem claim_C7_fetch_error_taxonomy_witness :
  _fetch_new_token ⟨0, fun _ => .resp 403 "denied"⟩ stEmpty
      = (.error (AuthErr.httpStatus 403 "denied"),
         { stEmpty with fetches := stEmpty.fetches + 1 }) :=
  (claim_C7_fetch_error_taxonomy ⟨0, fun _ => .resp 403 "denied"⟩ stEmpty).1
    403 "denied" rfl rfl

/-- Addability does not depend on the time added to. -/
lemma pyAddTime_isSome_of_addable (now : ℚ) (v : Json) (h : addableTime v = true) :
    ∃ x, pyAddTime now v = some x := by
  cases v <;> simp [addableTime] at h <;> simp [pyAddTime]

/-- Under a well behaved token endpoint answer the fetch succeeds and makes
exactly one more POST. -/
lemma fetch_new_token_of_good (env : AuthEnv) (st : AuthSt)
    (h : TokenRespGood (env.tokenResponses st.fetches)) :
    ∃ st', _fetch_new_token env st = (.ok (), st') ∧ st'.fetches = st.fetches + 1 := by
  rcases hr : env.tokenResponses st.fetches with _ | ⟨code, text⟩
  · rw [hr] at h
    exact h.elim
  · rw [hr] at h
    obtain ⟨h2, kvs, hj, ⟨v, htok⟩, hadd⟩ := h
    obtain ⟨x, hx⟩ := pyAddTime_isSome_of_addable env.now _ hadd
    exact ⟨⟨some v, x, st.fetches + 1⟩,
      by simp [_fetch_new_token, hr, h2, hj, htok, hx], rfl⟩

/-- Under a well behaved token endpoint get_valid_token always succeeds. -/
lemma get_valid_token_of_good (env : AuthEnv) (st : AuthSt)
    (h : ∀ n, TokenRespGood (env.tokenResponses n)) :
    ∃ t st', get_valid_token env st = (.ok t, st') := by
  by_cases hc : (pyTruthyOpt st.access_token && pyFloatGt st.expires_at (env.now + 60)) = true
  · exact ⟨st.access_token, st, by simp [get_valid_token, hc]⟩
  · obtain ⟨st', hf, _⟩ := fetch_new_token_of_good env st (h st.fetches)
    exact ⟨st'.access_token, st', by simp [get_valid_token, hc, hf]⟩

/-- C2: under a working token endpoint, a first response of 401 triggers
exactly one forced token refresh and exactly one retry of the request; if
the retried response is again non-2xx, including a second 401, the call
fails with the terminal ApiError built from that response and nothing is
retried again; and in every case at most two requests, hence at most one
retry, are ever issued. -/
theorem claim_C2_single_retry_on_401 :
  ∀ env st, (∀ n, TokenRespGood (env.auth.tokenResponses n)) →
    ((env.responses 0).status = 401 →
      (_authenticated_request env st).forcedRefreshes = 1
      ∧ (_authenticated_request env st).requests = 2
      ∧ (is2xx (env.responses 1).status = false →
          (_authenticated_request env st).result
            = .error (.apiError (env.responses 1).status (env.responses 1).text)))
    ∧ (_authenticated_request env st).requests ≤ 2 := by
  intro env st hgood
  obtain ⟨t1, st1, hg1⟩ := get_valid_token_of_good env.auth st hgood
  constructor
  · intro h401
    obtain ⟨st2, hf2, _⟩ := fetch_new_token_of_good env.auth st1 (hgood _)
    obtain ⟨t3, st3, hg3⟩ := get_valid_token_of_good env.auth st2 hgood
    refine ⟨?_, ?_, ?_⟩
    · by_cases h2 : is2xx (env.responses 1).status = true <;>
        simp [_authenticated_request, hg1, h401, hf2, hg3, h2]
    · by_cases h2 : is2xx (env.responses 1).status = true <;>
        simp [_authenticated_request, hg1, h401, hf2, hg3, h2]
    · intro h2
      simp [_authenticated_request, hg1, h401, hf2, hg3, h2]
  · by_cases h401 : (env.responses 0).status = 401
    · obtain ⟨st2, hf2, _⟩ := fetch_new_token_of_good env.auth st1 (hgood _)
      obtain ⟨t3, st3, hg3⟩ := get_valid_token_of_good env.auth st2 hgood
      by_cases h2 : is2xx (env.responses 1).status = true <;>
        simp [_authenticated_request, hg1, h401, hf2, hg3, h2]
    · by_cases h1 : is2xx (env.responses 0).status = true <;>
        simp [_authenticated_request, hg1, h401, h1]

/-- C2 witness: the twice-401 environment over a working token endpoint:
one forced refresh, two requests, and the terminal error carries the second
response. -/
theorem claim_C2_single_retry_on_401_witness :
  ((_authenticated_request envC2 stEmpty).forcedRefreshes = 1
    ∧ (_authenticated_request envC2 stEmpty).requests = 2
    ∧ ((is2xx (envC2.responses 1).status = false →
        (_authenticated_request envC2 stEmpty).result
          = .error (.apiError (envC2.responses 1).status (envC2.responses 1).text))))
  ∧ (_authenticated_request envC2 stEmpty).requests ≤ 2 := by
  have hgood : ∀ n, TokenRespGood (envC2.auth.tokenResponses n) := fun _ =>
    ⟨rfl, .cons "access_token" (Json.str "fresh") (.cons "expires_in" (Json.num 3600) .nil),
     rfl, ⟨Json.str "fresh", rfl⟩, rfl⟩
  have h := claim_C2_single_retry_on_401 envC2 stEmpty hgood
  exact ⟨h.1 rfl, h.2⟩
